import Mathlib

/-!
Shallow embedding of the redis-operator charm (src/src/charm.py,
src/src/pod_spec.py, src/src/client.py), together with proofs about the
behaviour of its event handlers, pod-spec construction and readiness probe.

Conventions:
* Python dicts are modelled as association lists in insertion order, so
  structural equality of `Val` matches `==` on the corresponding dicts.
* Python exceptions are modelled with `Except PyErr` / an `Option PyErr`
  component in handler results; a `some e` result means the exception `e`
  escaped the handler uncaught.
* Side effects of a handler invocation (unit-status writes, app-status
  writes, `pod.set_spec` calls) are recorded, in order, in a `List Effect`.
* Python's `sorted` is a stable sort; it is modelled by the stable
  `List.insertionSort`, which agrees with any stable sort on the key order.
* `x.split("/")` and `int(...)` are modelled by structural recursion over
  the character list of the string (`pySplitSlash`, `decNat`), matching
  Python's behaviour on the inputs that occur (unit names; `int` on
  plain decimal-digit strings, `ValueError` otherwise).
-/

namespace RedisOperator

/-- JSON-like values used for pod specs and resources (dicts keep Python's
insertion order). -/
inductive Val where
  | str (v : String)
  | int (v : Int)
  | arr (vs : List Val)
  | dict (kvs : List (String × Val))

/-- Status values of `ops.model` (ActiveStatus, WaitingStatus, BlockedStatus,
MaintenanceStatus), each carrying its message; `ActiveStatus()` is
`active ""`. -/
inductive Status where
  | active (msg : String)
  | waiting (msg : String)
  | blocked (msg : String)
  | maintenance (msg : String)
deriving DecidableEq, Repr

/-- Python exceptions that the charm code can raise: `KeyError` from
`config["image"]`, `ValueError` from `int(...)` on a non-numeric suffix. -/
inductive PyErr where
  | keyError (k : String)
  | valueError (s : String)
deriving DecidableEq, Repr

/-- Lifecycle events deliverable by the framework. -/
inductive Event where
  | start
  | leaderElected
  | configChanged
  | upgradeCharm
  | stop
  | updateStatus
deriving DecidableEq, Repr

/-- The events `RedisCharm.__init__` subscribes to via `framework.observe`;
each is routed to `_on_config_changed`.  No observer is registered for
`stop` or `update_status`. -/
def observedEvents : List Event :=
  [.start, .leaderElected, .configChanged, .upgradeCharm]

/-- Observable side effects of a handler invocation:
`self.model.unit.status = s`, `self.app.status = s`, and
`self.model.pod.set_spec(spec, resources)`. -/
inductive Effect where
  | setUnitStatus (s : Status)
  | setAppStatus (s : Status)
  | setSpec (spec : Val) (resources : Val)

/-- The external state a handler invocation observes:
`self.model.unit.is_leader()`, `self.model.config`, `self.app.name`, and
the keys of `hookenv.goal_state()["units"]` in insertion order. -/
structure Env where
  leader : Bool
  config : List (String × String)
  appName : String
  goalUnits : List String
deriving DecidableEq, Repr

/-- `s.split("/")` over the character list: like Python, the empty string
splits to `[""]`, and a trailing separator yields a trailing `""`. -/
def pySplitSlashAux : List Char → List Char → List String
  | [], acc => [String.mk acc.reverse]
  | c :: cs, acc =>
    if c = '/' then String.mk acc.reverse :: pySplitSlashAux cs []
    else pySplitSlashAux cs (c :: acc)

/-- `s.split("/")`. -/
def pySplitSlash (s : String) : List String :=
  pySplitSlashAux s.data []

/-- The value of a decimal digit character, `none` otherwise. -/
def digitVal (c : Char) : Option Nat :=
  if '0' ≤ c ∧ c ≤ '9' then some (c.toNat - '0'.toNat) else none

/-- `int(s)` on a plain decimal-digit string (`none` models the `ValueError`
Python raises on anything else; signs, whitespace and underscores do not
occur in unit names). -/
def decNat (cs : List Char) : Option Nat :=
  match cs with
  | [] => none
  | _ =>
    cs.foldl
      (fun acc c =>
        match acc, digitVal c with
        | some n, some d => some (n * 10 + d)
        | _, _ => none)
      (some 0)

/-- `int(x.split("/")[-1])`: the numeric suffix of a unit name after its
last "/" (`none` when it is not a digit string, in which case Python's
`int` raises `ValueError`). -/
def unitKey (s : String) : Option Nat :=
  decNat ((pySplitSlash s).getLastD "").data

/-- Comparator used to model `sorted(..., key=lambda x: int(x.split("/")[-1]))`:
order unit names by numeric suffix. -/
def unitLe (a b : String) : Prop :=
  (unitKey a).getD 0 ≤ (unitKey b).getD 0

instance : DecidableRel unitLe := fun a b =>
  inferInstanceAs (Decidable ((unitKey a).getD 0 ≤ (unitKey b).getD 0))

/-- `RedisCharm.expected_units` / `PodSpecBuilder.expected_units` (the two
properties have identical bodies):
`sorted(goal_state().get("units", {}).keys(), key=lambda x: int(x.split("/")[-1]))`.
`sorted` first evaluates the key on every element (raising `ValueError` on a
non-numeric suffix), then stably sorts by the key. -/
def expected_units (units : List String) : Except PyErr (List String) :=
  if units.all (fun u => (unitKey u).isSome) then
    .ok (List.insertionSort unitLe units)
  else
    .error (.valueError "invalid literal for int")

/-- The `config_fields` mapping of `_make_pod_spec` / `_build_env_conf_spec`,
in insertion order. -/
def config_fields : List (String × String) :=
  [("JUJU_NODE_NAME", "spec.nodeName"),
   ("JUJU_POD_NAME", "metadata.name"),
   ("JUJU_POD_NAMESPACE", "metadata.namespace"),
   ("JUJU_POD_IP", "status.podIP")]

/-- `{"field": {"path": p, "api-version": "v1"}}`. -/
def fieldRef (p : String) : Val :=
  .dict [("field", .dict [("path", .str p), ("api-version", .str "v1")])]

/-- The `env_config` dict shared by `RedisCharm._make_pod_spec` (with
`name = self.app.name`) and `PodSpecBuilder._build_env_conf_spec` (with
`name = self.name`): the field refs, then `JUJU_EXPECTED_UNITS` as the
space-joined unit list, then `JUJU_APPLICATION`. -/
def envConfig (name : String) (units : List String) : Val :=
  .dict (config_fields.map (fun kp => (kp.1, fieldRef kp.2))
    ++ [("JUJU_EXPECTED_UNITS", .str (String.intercalate " " units)),
        ("JUJU_APPLICATION", .str name)])

/-- `RedisCharm._make_pod_spec`.  `env_config` (hence `expected_units`, which
reads the goal state) is built before the spec dict literal evaluates
`config["image"]`, so a `ValueError` from the former precedes the `KeyError`
from a missing "image" key. -/
def make_pod_spec (env : Env) : Except PyErr Val := do
  let units ← expected_units env.goalUnits
  let image ← match env.config.lookup "image" with
    | some v => Except.ok v
    | none => Except.error (.keyError "image")
  pure (.dict [
    ("version", .int 3),
    ("containers", .arr [.dict [
      ("name", .str env.appName),
      ("imageDetails", .dict [("imagePath", .str image)]),
      ("imagePullPolicy", .str "Always"),
      ("ports", .arr [.dict [("name", .str "redis"),
                             ("containerPort", .int 6379),
                             ("protocol", .str "TCP")]]),
      ("envConfig", envConfig env.appName units),
      ("kubernetes", .dict [("readinessProbe", .dict [
        ("tcpSocket", .dict [("port", .int 6379)]),
        ("initialDelaySeconds", .int 3),
        ("periodSeconds", .int 3)])])]])])

/-- `RedisCharm._make_pod_resources`. -/
def make_pod_resources (env : Env) : Val :=
  .dict [("services", .arr [.dict [
    ("name", .str (env.appName ++ "-master")),
    ("spec", .dict [
      ("type", .str "NodePort"),
      ("clusterIP", .str ""),
      ("ports", .arr [.dict [("name", .str "redis"),
                             ("port", .int 6379),
                             ("protocol", .str "TCP")]]),
      ("selector", .dict [("app.kubernetes.io/name", .str env.appName),
                          ("role", .str "master")])])]])]

/-- `RedisCharm._handle_leader_config_change`: set
`MaintenanceStatus("Configuring pod")`, build the pod spec (an exception
there escapes with the Maintenance status already written), call
`pod.set_spec(spec, {"kubernetesResources": resources})`, then set
`ActiveStatus("Pod configured")`. -/
def handle_leader_config_change (env : Env) : List Effect × Option PyErr :=
  let pre := [Effect.setUnitStatus (.maintenance "Configuring pod")]
  match make_pod_spec env with
  | .error e => (pre, some e)
  | .ok spec =>
      (pre ++ [Effect.setSpec spec
                 (.dict [("kubernetesResources", make_pod_resources env)]),
               Effect.setUnitStatus (.active "Pod configured")], none)

/-- `RedisCharm._handle_non_leader_config_change`: set `ActiveStatus()`. -/
def handle_non_leader_config_change : List Effect × Option PyErr :=
  ([Effect.setUnitStatus (.active "")], none)

/-- `RedisCharm._on_config_changed`: branch on `is_leader()`. -/
def on_config_changed (env : Env) : List Effect × Option PyErr :=
  if env.leader then handle_leader_config_change env
  else handle_non_leader_config_change

/-- Framework dispatch of one event: the four observed events run
`_on_config_changed`; any other event has no registered observer, so no
handler runs and no effect is produced. -/
def dispatch (ev : Event) (env : Env) : List Effect × Option PyErr :=
  if ev ∈ observedEvents then on_config_changed env else ([], none)

/-- The `set_spec` calls recorded in an effect list, in order. -/
def specSubmissions (effs : List Effect) : List (Val × Val) :=
  effs.filterMap fun e =>
    match e with
    | .setSpec s r => some (s, r)
    | _ => none

/-- The application-status writes recorded in an effect list, in order. -/
def appStatusWrites (effs : List Effect) : List Status :=
  effs.filterMap fun e =>
    match e with
    | .setAppStatus s => some s
    | _ => none

/-- The unit-status writes recorded in an effect list, in order. -/
def unitStatusWrites (effs : List Effect) : List Status :=
  effs.filterMap fun e =>
    match e with
    | .setUnitStatus s => some s
    | _ => none

/-- The unit status in force when the invocation ends: the last write, if
any. -/
def finalUnitStatus (effs : List Effect) : Option Status :=
  (unitStatusWrites effs).getLast?

/-! ### `src/pod_spec.py`: `PodSpecBuilder` -/

/-- `PodSpecBuilder` after `__init__` has run. -/
structure PodSpecBuilder where
  name : String
  port : Int
  image_info : List (String × Val)

/-- `PodSpecBuilder.__init__(name, port=6379, image_info=None)`:
`if not image_info: image_info = {}` — both `None` and the (only falsy dict)
`{}` become `{}`. -/
def PodSpecBuilder.make (name : String) (port : Int := 6379)
    (image_info : Option (List (String × Val)) := none) : PodSpecBuilder :=
  { name := name, port := port, image_info := image_info.getD [] }

/-- `PodSpecBuilder._build_readiness_spec`. -/
def PodSpecBuilder.build_readiness_spec (b : PodSpecBuilder) : Val :=
  .dict [("tcpSocket", .dict [("port", .int b.port)]),
         ("initialDelaySeconds", .int 10),
         ("periodSeconds", .int 5)]

/-- `PodSpecBuilder._build_port_spec`. -/
def PodSpecBuilder.build_port_spec (b : PodSpecBuilder) : Val :=
  .arr [.dict [("name", .str "redis"),
               ("containerPort", .int b.port),
               ("protocol", .str "TCP")]]

/-- `PodSpecBuilder._build_env_conf_spec`: same `config_fields` dict as the
charm, `JUJU_EXPECTED_UNITS` from `self.expected_units` (which reads
`hookenv.goal_state()` — an external read, passed here as `goalUnits`), and
`JUJU_APPLICATION = self.name`. -/
def PodSpecBuilder.build_env_conf_spec (b : PodSpecBuilder)
    (goalUnits : List String) : Except PyErr Val := do
  let units ← expected_units goalUnits
  pure (envConfig b.name units)

/-- `PodSpecBuilder.build_pod_spec`: a single-container spec whose
`imageDetails` is `self.image_info` unchanged. -/
def PodSpecBuilder.build_pod_spec (b : PodSpecBuilder)
    (goalUnits : List String) : Except PyErr Val := do
  let env_conf ← b.build_env_conf_spec goalUnits
  pure (.dict [
    ("version", .int 3),
    ("containers", .arr [.dict [
      ("name", .str b.name),
      ("imageDetails", .dict b.image_info),
      ("imagePullPolicy", .str "Always"),
      ("ports", b.build_port_spec),
      ("envConfig", env_conf),
      ("kubernetes", .dict [("readinessProbe", b.build_readiness_spec)])]])])

/-! ### `src/client.py`: `RedisClient` -/

/-- Outcome of `redis.Redis(host=..., port=...)` contacting the backing
service: success, or a raised `redis.exceptions.ConnectionError`. -/
inductive ConnectOutcome where
  | success
  | connectionError (msg : String)
deriving DecidableEq, Repr

/-- `RedisClient.__init__`. -/
structure RedisClient where
  host : String
  port : Int
deriving DecidableEq, Repr

/-- `RedisClient.is_ready`: `try: redis.Redis(...); return True` with
`except redis.exceptions.ConnectionError: ...; return False`.  `connect`
abstracts the outcome of contacting the service at `self.host, self.port`;
the result is a plain `Bool` — no exception escapes. -/
def RedisClient.is_ready (c : RedisClient)
    (connect : RedisClient → ConnectOutcome) : Bool :=
  match connect c with
  | .success => true
  | .connectionError _ => false

/-! ### Concrete environments and observation helpers used in the proofs -/

/-- A non-leader environment with a valid config. -/
def envNonLeader : Env :=
  { leader := false, config := [("image", "redis:6.0")], appName := "redis",
    goalUnits := ["redis/0", "redis/1"] }

/-- A leader environment whose config is missing the required "image" key. -/
def envMissingImage : Env :=
  { leader := true, config := [], appName := "redis",
    goalUnits := ["redis/0"] }

/-- A leader environment with a valid config. -/
def envLeaderValid : Env :=
  { leader := true, config := [("image", "redis:6.0")], appName := "redis",
    goalUnits := ["redis/0", "redis/1"] }

/-- The pod spec the leader builds in `envLeaderValid` (extracted from the
successful `make_pod_spec` run). -/
def specLeaderValid : Val :=
  (make_pod_spec envLeaderValid).toOption.getD (.int 0)

/-- A `PodSpecBuilder` constructed as `PodSpecBuilder("redis")`. -/
def builder0 : PodSpecBuilder :=
  PodSpecBuilder.make "redis" 6379 none

/-- The `JUJU_EXPECTED_UNITS` entry of the env config of the single container
of a built pod spec, if the shape matches. -/
def expectedUnitsEntry (r : Except PyErr Val) : Option Val :=
  match r with
  | .ok (.dict kvs) =>
    match kvs.lookup "containers" with
    | some (.arr [.dict ckvs]) =>
      match ckvs.lookup "envConfig" with
      | some (.dict ekvs) => ekvs.lookup "JUJU_EXPECTED_UNITS"
      | _ => none
    | _ => none
  | _ => none

/-- The number of containers of a built pod spec, if the shape matches. -/
def containerCount (r : Except PyErr Val) : Option Nat :=
  match r with
  | .ok (.dict kvs) =>
    match kvs.lookup "containers" with
    | some (.arr cs) => some cs.length
    | _ => none
  | _ => none

/-- The `imageDetails` entry of the single container of a built pod spec, if
the shape matches. -/
def containerImageDetails (r : Except PyErr Val) : Option Val :=
  match r with
  | .ok (.dict kvs) =>
    match kvs.lookup "containers" with
    | some (.arr [.dict ckvs]) => ckvs.lookup "imageDetails"
    | _ => none
  | _ => none

instance : IsTotal String unitLe :=
  ⟨fun a b => Nat.le_total ((unitKey a).getD 0) ((unitKey b).getD 0)⟩

instance : IsTrans String unitLe :=
  ⟨fun _ _ _ => Nat.le_trans⟩

/-! ### Theorems -/

/-- C1: for every event handled while leadership is false, the invocation
performs no spec-submission call and no ApplicationStatus write, raises
nothing, and — whenever a handler actually runs, i.e. for the observed
events — sets UnitStatus to an Active value (`ActiveStatus()`). -/
theorem c1_non_leader_no_submission (ev : Event) (env : Env)
    (h : env.leader = false) :
    specSubmissions (dispatch ev env).1 = [] ∧
    appStatusWrites (dispatch ev env).1 = [] ∧
    (dispatch ev env).2 = none ∧
    (ev ∈ observedEvents →
      finalUnitStatus (dispatch ev env).1 = some (Status.active "")) := by
  unfold dispatch on_config_changed
  by_cases hm : ev ∈ observedEvents <;>
    simp [hm, h, handle_non_leader_config_change, specSubmissions,
      appStatusWrites, finalUnitStatus, unitStatusWrites]

/-- Witness for C1 at a concrete non-leader ConfigChanged event. -/
theorem c1_non_leader_no_submission_witness :
    specSubmissions (dispatch .configChanged envNonLeader).1 = [] ∧
    appStatusWrites (dispatch .configChanged envNonLeader).1 = [] ∧
    (dispatch .configChanged envNonLeader).2 = none ∧
    (Event.configChanged ∈ observedEvents →
      finalUnitStatus (dispatch .configChanged envNonLeader).1 =
        some (Status.active "")) :=
  c1_non_leader_no_submission .configChanged envNonLeader rfl

/-- C2 counterexample: a leader ConfigChanged with the "image" key absent
does not set Blocked("configuration invalid") and does not terminate
normally: `config["image"]` raises KeyError out of the handler and the last
status written is Maintenance("Configuring pod").  (No spec submission
occurs, as the claim also says.) -/
theorem c2_counterexample :
    (dispatch .configChanged envMissingImage).2 =
      some (PyErr.keyError "image") ∧
    finalUnitStatus (dispatch .configChanged envMissingImage).1 =
      some (Status.maintenance "Configuring pod") ∧
    ¬ finalUnitStatus (dispatch .configChanged envMissingImage).1 =
        some (Status.blocked "configuration invalid") ∧
    specSubmissions (dispatch .configChanged envMissingImage).1 = [] :=
  ⟨rfl, rfl, by decide, rfl⟩

/-- C2 amended: for every configuration mapping missing the required key
"image", handling an observed configuration-application event as leader
(with goal-state unit names that parse) writes only
UnitStatus = Maintenance("Configuring pod"), raises KeyError("image")
uncaught, and performs no spec-submission call. -/
theorem c2_missing_image_raises (ev : Event) (env : Env)
    (hobs : ev ∈ observedEvents)
    (hl : env.leader = true)
    (himg : env.config.lookup "image" = none)
    (hunits : env.goalUnits.all (fun u => (unitKey u).isSome) = true) :
    dispatch ev env =
      ([Effect.setUnitStatus (.maintenance "Configuring pod")],
       some (PyErr.keyError "image")) := by
  unfold dispatch on_config_changed handle_leader_config_change
    make_pod_spec expected_units
  simp [hobs, hl, himg, hunits, Bind.bind, Except.bind]

/-- Witness for C2 amended at a concrete leader event with empty config. -/
theorem c2_missing_image_raises_witness :
    dispatch .configChanged envMissingImage =
      ([Effect.setUnitStatus (.maintenance "Configuring pod")],
       some (PyErr.keyError "image")) :=
  c2_missing_image_raises .configChanged envMissingImage (by decide) rfl rfl
    rfl

/-- C3 counterexample: on the leader path with the "image" key absent, an
uncaught KeyError reaches the event dispatcher, so not every handler
invocation terminates without an uncaught exception. -/
theorem c3_counterexample :
    (dispatch .start envMissingImage).2 = some (PyErr.keyError "image") ∧
    ¬ (dispatch .start envMissingImage).2 = none :=
  ⟨rfl, by decide⟩

/-- C3 amended: a handler invocation for an observed event terminates
without an uncaught exception, ending with UnitStatus freshly set to an
Active value, provided the leader pod-spec build does not raise (config has
"image" and goal-state unit names parse); when the build raises on the
leader path, the exception escapes to the dispatcher (see the
counterexample). -/
theorem c3_handlers_set_status (ev : Event) (env : Env)
    (hobs : ev ∈ observedEvents)
    (hok : env.leader = true → (make_pod_spec env).isOk = true) :
    (dispatch ev env).2 = none ∧
    finalUnitStatus (dispatch ev env).1 =
      some (if env.leader then Status.active "Pod configured"
            else Status.active "") := by
  unfold dispatch on_config_changed
  cases hl : env.leader with
  | false =>
    simp [hobs, handle_non_leader_config_change, finalUnitStatus,
      unitStatusWrites]
  | true =>
    cases hspec : make_pod_spec env with
    | error e =>
      have hfalse := hok hl
      rw [hspec] at hfalse
      simp [Except.isOk, Except.toBool] at hfalse
    | ok spec =>
      simp [hobs, handle_leader_config_change, hspec, finalUnitStatus,
        unitStatusWrites]

/-- Witness for C3 amended at a concrete valid leader Start event. -/
theorem c3_handlers_set_status_witness :
    (dispatch .start envLeaderValid).2 = none ∧
    finalUnitStatus (dispatch .start envLeaderValid).1 =
      some (if envLeaderValid.leader then Status.active "Pod configured"
            else Status.active "") :=
  c3_handlers_set_status .start envLeaderValid (by decide) (fun _ => rfl)

/-- C4 counterexample: two successive leader runs with identical inputs
perform two spec-submission calls, not exactly one — nothing is skipped. -/
theorem c4_counterexample :
    (specSubmissions ((on_config_changed envLeaderValid).1 ++
        (on_config_changed envLeaderValid).1)).length = 2 ∧
    ¬ (specSubmissions ((on_config_changed envLeaderValid).1 ++
        (on_config_changed envLeaderValid).1)).length = 1 :=
  ⟨rfl, by decide⟩

/-- C4 amended: the code keeps no persisted last-applied specification and
performs no comparison — every leader run whose pod-spec build succeeds
submits the spec unconditionally, so two successive runs with identical
inputs perform exactly two (identical) spec-submission calls; the second is
not skipped. -/
theorem c4_no_idempotence (env : Env) (spec : Val)
    (hl : env.leader = true)
    (hspec : make_pod_spec env = .ok spec) :
    specSubmissions ((on_config_changed env).1 ++
        (on_config_changed env).1) =
      [(spec, Val.dict [("kubernetesResources", make_pod_resources env)]),
       (spec, Val.dict [("kubernetesResources", make_pod_resources env)])] := by
  unfold on_config_changed handle_leader_config_change
  simp [hl, hspec, specSubmissions]

/-- Witness for C4 amended at the concrete valid leader environment. -/
theorem c4_no_idempotence_witness :
    specSubmissions ((on_config_changed envLeaderValid).1 ++
        (on_config_changed envLeaderValid).1) =
      [(specLeaderValid,
        Val.dict [("kubernetesResources", make_pod_resources envLeaderValid)]),
       (specLeaderValid,
        Val.dict [("kubernetesResources", make_pod_resources envLeaderValid)])] :=
  c4_no_idempotence envLeaderValid specLeaderValid rfl rfl

/-- C5 counterexample: on the valid leader path, the first unit-status write
is Maintenance("Configuring pod"), not Waiting("configuring pod"); the last
is Active("Pod configured"), not Active("pod is ready"); and no
ApplicationStatus write ever happens. -/
theorem c5_counterexample :
    (unitStatusWrites (on_config_changed envLeaderValid).1).head? =
      some (Status.maintenance "Configuring pod") ∧
    ¬ (unitStatusWrites (on_config_changed envLeaderValid).1).head? =
        some (Status.waiting "configuring pod") ∧
    finalUnitStatus (on_config_changed envLeaderValid).1 =
      some (Status.active "Pod configured") ∧
    ¬ finalUnitStatus (on_config_changed envLeaderValid).1 =
        some (Status.active "pod is ready") ∧
    appStatusWrites (on_config_changed envLeaderValid).1 = [] :=
  ⟨rfl, by decide, rfl, by decide, rfl⟩

/-- C5 amended: on the leader configuration-application path with a
successfully built spec, the handler first sets
UnitStatus = Maintenance("Configuring pod") before submitting any
specification, on success ends with UnitStatus = Active("Pod configured"),
and never writes ApplicationStatus. -/
theorem c5_leader_effect_order (env : Env) (spec : Val)
    (hl : env.leader = true)
    (hspec : make_pod_spec env = .ok spec) :
    (on_config_changed env).1 =
      [Effect.setUnitStatus (.maintenance "Configuring pod"),
       Effect.setSpec spec
         (.dict [("kubernetesResources", make_pod_resources env)]),
       Effect.setUnitStatus (.active "Pod configured")] ∧
    appStatusWrites (on_config_changed env).1 = [] := by
  unfold on_config_changed handle_leader_config_change
  simp [hl, hspec, appStatusWrites]

/-- Witness for C5 amended at the concrete valid leader environment. -/
theorem c5_leader_effect_order_witness :
    (on_config_changed envLeaderValid).1 =
      [Effect.setUnitStatus (.maintenance "Configuring pod"),
       Effect.setSpec specLeaderValid
         (.dict [("kubernetesResources", make_pod_resources envLeaderValid)]),
       Effect.setUnitStatus (.active "Pod configured")] ∧
    appStatusWrites (on_config_changed envLeaderValid).1 = [] :=
  c5_leader_effect_order envLeaderValid specLeaderValid rfl rfl

/-- C6 counterexample: a Stop event produces no effect at all — in
particular it does not set UnitStatus = Maintenance("pod is terminating"). -/
theorem c6_counterexample :
    dispatch .stop envLeaderValid = ([], none) ∧
    ¬ finalUnitStatus (dispatch .stop envLeaderValid).1 =
        some (Status.maintenance "pod is terminating") :=
  ⟨rfl, by decide⟩

/-- C6 amended: `RedisCharm.__init__` registers no observer for Stop, so a
Stop event runs no handler: regardless of leadership or any other observed
state, it writes no status, submits no spec, raises nothing — it performs no
side effect whatsoever (and in particular does not set Maintenance). -/
theorem c6_stop_is_ignored (env : Env) :
    Event.stop ∉ observedEvents ∧ dispatch .stop env = ([], none) := by
  exact ⟨by decide, rfl⟩

/-- Witness for C6 amended at a concrete environment. -/
theorem c6_stop_is_ignored_witness :
    Event.stop ∉ observedEvents ∧
    dispatch .stop envNonLeader = ([], none) :=
  c6_stop_is_ignored envNonLeader

/-- C7: `is_ready` never raises to its caller — its result is a plain
boolean for every host/port and every outcome of contacting the backing
service; a successful contact yields `true` and a raised connection error is
caught internally and reported as `false`. -/
theorem c7_is_ready_never_raises (c : RedisClient)
    (connect : RedisClient → ConnectOutcome) :
    (connect c = .success → c.is_ready connect = true) ∧
    (∀ msg, connect c = .connectionError msg →
      c.is_ready connect = false) := by
  unfold RedisClient.is_ready
  cases h : connect c <;> simp

/-- Witness for C7: a concrete client whose connection attempt raises a
connection error reports `false`. -/
theorem c7_is_ready_never_raises_witness :
    RedisClient.is_ready { host := "localhost", port := 6379 }
      (fun _ => ConnectOutcome.connectionError "connection refused")
      = false :=
  (c7_is_ready_never_raises { host := "localhost", port := 6379 }
    (fun _ => ConnectOutcome.connectionError "connection refused")).2
    "connection refused" rfl

/-- C8 counterexample: `build_pod_spec` reads the goal state during the
build (through `expected_units`), so two builds on the same builder — i.e.
identical constructor inputs — yield structurally different specs when the
external goal state differs between the runs. -/
theorem c8_counterexample :
    expectedUnitsEntry (builder0.build_pod_spec ["redis/0"]) =
      some (Val.str "redis/0") ∧
    expectedUnitsEntry (builder0.build_pod_spec []) = some (Val.str "") ∧
    ¬ builder0.build_pod_spec ["redis/0"] = builder0.build_pod_spec [] := by
  refine ⟨rfl, rfl, fun h => ?_⟩
  have h2 := congrArg expectedUnitsEntry h
  rw [show expectedUnitsEntry (builder0.build_pod_spec ["redis/0"]) =
        some (Val.str "redis/0") from rfl,
      show expectedUnitsEntry (builder0.build_pod_spec []) =
        some (Val.str "") from rfl] at h2
  injection h2 with h3
  injection h3 with h4
  exact absurd h4 (by decide)

/-- C8 amended: the builder performs one external read (the goal state, via
`expected_units`); `build_pod_spec` is deterministic given the constructor
inputs together with that read — two builds with equal constructor inputs
whose goal-state reads produce the same expected-units result are
structurally equal. -/
theorem c8_deterministic_given_goal_state (b1 b2 : PodSpecBuilder)
    (gs1 gs2 : List String)
    (hb : b1 = b2)
    (hgs : expected_units gs1 = expected_units gs2) :
    b1.build_pod_spec gs1 = b2.build_pod_spec gs2 := by
  subst hb
  unfold PodSpecBuilder.build_pod_spec PodSpecBuilder.build_env_conf_spec
  rw [hgs]

/-- Witness for C8 amended: the same builder over two different raw goal
states that sort to the same expected-units list yields equal specs. -/
theorem c8_deterministic_given_goal_state_witness :
    builder0.build_pod_spec ["redis/1", "redis/0"] =
      builder0.build_pod_spec ["redis/0", "redis/1"] :=
  c8_deterministic_given_goal_state builder0 builder0
    ["redis/1", "redis/0"] ["redis/0", "redis/1"] rfl rfl

/-- C9: for every goal state whose unit names all carry a decimal numeric
suffix after the final "/", `expected_units` succeeds and returns exactly
those names (a permutation of the input), ordered by numeric suffix
ascending. -/
theorem c9_expected_units_sorted (units : List String)
    (h : ∀ u ∈ units, (unitKey u).isSome = true) :
    ∃ l, expected_units units = .ok l ∧
      l.Perm units ∧
      l.Pairwise (fun a b => (unitKey a).getD 0 ≤ (unitKey b).getD 0) := by
  refine ⟨List.insertionSort unitLe units, ?_, ?_, ?_⟩
  · unfold expected_units
    rw [if_pos]
    exact List.all_eq_true.mpr (fun u hu => h u hu)
  · exact List.perm_insertionSort unitLe units
  · exact List.sorted_insertionSort unitLe units

/-- Witness for C9: `redis/10` sorts after `redis/9` (numeric, not
lexicographic, order). -/
theorem c9_expected_units_sorted_witness :
    (expected_units ["redis/10", "redis/9", "redis/2"] =
      .ok ["redis/2", "redis/9", "redis/10"]) ∧
    ∃ l, expected_units ["redis/10", "redis/9", "redis/2"] = .ok l ∧
      l.Perm ["redis/10", "redis/9", "redis/2"] ∧
      l.Pairwise (fun a b => (unitKey a).getD 0 ≤ (unitKey b).getD 0) :=
  ⟨rfl, c9_expected_units_sorted ["redis/10", "redis/9", "redis/2"]
    (by decide)⟩

/-- C10: constructing a `PodSpecBuilder` with `image_info` absent (`None`,
the default) or the falsy `{}` stores the empty mapping, and
`build_pod_spec` succeeds (whenever the goal-state read does), producing a
spec with a single container whose `imageDetails` is the empty mapping —
missing image information is defaulted, not rejected. -/
theorem c10_falsy_image_info_defaults (name : String) (port : Int)
    (info : Option (List (String × Val))) (gs : List String)
    (units : List String)
    (hfalsy : info = none ∨ info = some [])
    (hgs : expected_units gs = .ok units) :
    (PodSpecBuilder.make name port info).image_info = [] ∧
    ((PodSpecBuilder.make name port info).build_pod_spec gs).isOk = true ∧
    containerCount
      ((PodSpecBuilder.make name port info).build_pod_spec gs) = some 1 ∧
    containerImageDetails
      ((PodSpecBuilder.make name port info).build_pod_spec gs) =
      some (Val.dict []) := by
  have himg : (PodSpecBuilder.make name port info).image_info = [] := by
    rcases hfalsy with h | h <;> simp [h, PodSpecBuilder.make]
  refine ⟨himg, ?_, ?_, ?_⟩ <;>
    simp [PodSpecBuilder.build_pod_spec, PodSpecBuilder.build_env_conf_spec,
      hgs, himg, Bind.bind, Except.bind, Pure.pure, Except.pure,
      Except.isOk, Except.toBool, containerCount, containerImageDetails,
      List.lookup]

/-- Witness for C10 at a concrete builder with `image_info = None`. -/
theorem c10_falsy_image_info_defaults_witness :
    (PodSpecBuilder.make "redis" 6379 none).image_info = [] ∧
    ((PodSpecBuilder.make "redis" 6379 none).build_pod_spec
      ["redis/0"]).isOk = true ∧
    containerCount
      ((PodSpecBuilder.make "redis" 6379 none).build_pod_spec
        ["redis/0"]) = some 1 ∧
    containerImageDetails
      ((PodSpecBuilder.make "redis" 6379 none).build_pod_spec
        ["redis/0"]) = some (Val.dict []) :=
  c10_falsy_image_info_defaults "redis" 6379 none ["redis/0"] ["redis/0"]
    (Or.inl rfl) rfl

end RedisOperator
